import Mathlib

/-
Verification development for the CyberSlugMesa repository.

The chemical odor field of `model.py` (`CyberSlugModel.patches`,
`update_odor_patches`, `set_patch_odor`) is embedded as rational-valued
functions on a toroidal grid `ZMod w × ZMod h` (the `np.pad(..., mode='wrap')`
slicing is exactly the 8-neighbor toroidal Moore sum).  The forager of
`agents.py` (`CyberslugAgent`) is embedded as a record of its numeric state
with the per-tick update functions `calc_SH`, `calc_learning_circuit`,
`update_state` and `update_proboscis` transcribed from the source.  Python
float arithmetic is modelled by exact rational arithmetic; `math.exp` is
modelled by an abstract parameter `e : ℚ → ℚ` about which theorems assume
only the properties they need (positivity, monotonicity, `e x * e (-x) = 1`),
all of which hold for the real exponential.
-/

set_option maxHeartbeats 1000000

/-! ## Chemical field (`model.py`, lines 262-315) -/

/-- A cell of the `patch_width × patch_height` odor grid; the grid is toroidal
because `update_odor_patches` pads with `mode='wrap'`. -/
abbrev GridCell (w h : ℕ) := ZMod w × ZMod h

/-- Sum of the 8 Moore neighbors of a cell, with toroidal wraparound: the
`neighbors_sum` expression of `model.py` lines 291-295 (eight shifted slices of
the wrap-padded array). -/
def neighborSum (w h : ℕ) (f : GridCell w h → ℚ) (p : GridCell w h) : ℚ :=
  f (p.1 - 1, p.2 - 1) + f (p.1 - 1, p.2) + f (p.1 - 1, p.2 + 1) +
  f (p.1, p.2 - 1) + f (p.1, p.2 + 1) +
  f (p.1 + 1, p.2 - 1) + f (p.1 + 1, p.2) + f (p.1 + 1, p.2 + 1)

/-- One channel's combined diffusion-and-evaporation update:
`self.patches[i] = evap * ((1.0 - amount) * field + (amount / 8.0) * neighbors_sum)`
(`model.py` line 297). -/
def fieldStep (w h : ℕ) (ev fr : ℚ) (f : GridCell w h → ℚ) : GridCell w h → ℚ :=
  fun p => ev * ((1 - fr) * f p + (fr / 8) * neighborSum w h f p)

/-- `diffusion_rates = [1.0, 1.0, 1.0, 1.0, 0.5]` (`model.py` line 282). -/
def diffusionRates : Fin 5 → ℚ := ![1, 1, 1, 1, 0.5]

/-- `evap = 0.95` (`model.py` line 283). -/
def evapRate : ℚ := 0.95

/-- The five-channel odor field (`self.patches`, channels
[betaine, hermi, flab, drug, pleur]). -/
abbrev OdorPatches (w h : ℕ) := Fin 5 → GridCell w h → ℚ

/-- `set_patch_odor`: add an odor vector at one cell (`model.py` lines 307-310). -/
def depositAt (w h : ℕ) (patches : OdorPatches w h) (p : GridCell w h)
    (odor : Fin 5 → ℚ) : OdorPatches w h :=
  fun i q => patches i q + if q = p then odor i else 0

/-- The odor vector a slug deposits (`model.py` lines 272-278): minimal pleur
odor in odor-null mode, otherwise `size / max_slug_size` on the betaine and
pleur channels. -/
def slugOdor (odorNull : Bool) (size maxSlugSize : ℚ) : Fin 5 → ℚ :=
  if odorNull then ![0, 0, 0, 0, 0.01]
  else ![size / maxSlugSize, 0, 0, 0, size / maxSlugSize]

/-- The slug-odor deposit loop at the top of `update_odor_patches`
(`model.py` lines 270-278); each slug is given by its patch cell and size. -/
def depositSlugOdors (w h : ℕ) (odorNull : Bool) (maxSlugSize : ℚ)
    (slugs : List (GridCell w h × ℚ)) (patches : OdorPatches w h) : OdorPatches w h :=
  slugs.foldl (fun acc sl => depositAt w h acc sl.1 (slugOdor odorNull sl.2 maxSlugSize)) patches

/-- `update_odor_patches` (`model.py` lines 262-297): first the slugs deposit
their odor, then every channel is diffused and evaporated. -/
def update_odor_patches (w h : ℕ) (odorNull : Bool) (maxSlugSize : ℚ)
    (slugs : List (GridCell w h × ℚ)) (patches : OdorPatches w h) : OdorPatches w h :=
  let deposited := depositSlugOdors w h odorNull maxSlugSize slugs patches
  fun i => fieldStep w h evapRate (diffusionRates i) (deposited i)

/-- Modelled from the spec: the field update in the order the spec describes
("diffuses the field first, then lets agents deposit after sensing") — diffuse
and evaporate every channel, then apply the slug deposits.  This definition
follows the spec's words and is compared against `update_odor_patches`, which
follows the source. -/
def update_odor_patches_spec_order (w h : ℕ) (odorNull : Bool) (maxSlugSize : ℚ)
    (slugs : List (GridCell w h × ℚ)) (patches : OdorPatches w h) : OdorPatches w h :=
  depositSlugOdors w h odorNull maxSlugSize slugs
    (fun i => fieldStep w h evapRate (diffusionRates i) (patches i))

/-- A field that is 1 at one cell and 0 elsewhere (the Scenario A deposit). -/
def deltaField (w h : ℕ) (c : GridCell w h) : GridCell w h → ℚ :=
  fun q => if q = c then 1 else 0

/-- Total mass of one channel: the sum of the field over all grid cells. -/
def totalMass (w h : ℕ) [NeZero w] [NeZero h] (f : GridCell w h → ℚ) : ℚ :=
  ∑ q, f q

/-! ### Helper lemmas for the field -/

theorem sum_shift (w h : ℕ) [NeZero w] [NeZero h] (f : GridCell w h → ℚ)
    (a : ZMod w) (b : ZMod h) :
    (∑ p : GridCell w h, f (p.1 + a, p.2 + b)) = ∑ p : GridCell w h, f p :=
  Equiv.sum_comp ((Equiv.addRight a).prodCongr (Equiv.addRight b)) f

theorem sum_neighborSum (w h : ℕ) [NeZero w] [NeZero h] (f : GridCell w h → ℚ) :
    (∑ p : GridCell w h, neighborSum w h f p) = 8 * totalMass w h f := by
  have e1 : (∑ p : GridCell w h, f (p.1 - 1, p.2 - 1)) = ∑ p : GridCell w h, f p :=
    by simpa [← sub_eq_add_neg] using sum_shift w h f (-1) (-1)
  have e2 : (∑ p : GridCell w h, f (p.1 - 1, p.2)) = ∑ p : GridCell w h, f p :=
    by simpa [← sub_eq_add_neg] using sum_shift w h f (-1) 0
  have e3 : (∑ p : GridCell w h, f (p.1 - 1, p.2 + 1)) = ∑ p : GridCell w h, f p :=
    by simpa [← sub_eq_add_neg] using sum_shift w h f (-1) 1
  have e4 : (∑ p : GridCell w h, f (p.1, p.2 - 1)) = ∑ p : GridCell w h, f p :=
    by simpa [← sub_eq_add_neg] using sum_shift w h f 0 (-1)
  have e5 : (∑ p : GridCell w h, f (p.1, p.2 + 1)) = ∑ p : GridCell w h, f p :=
    by simpa [← sub_eq_add_neg] using sum_shift w h f 0 1
  have e6 : (∑ p : GridCell w h, f (p.1 + 1, p.2 - 1)) = ∑ p : GridCell w h, f p :=
    by simpa [← sub_eq_add_neg] using sum_shift w h f 1 (-1)
  have e7 : (∑ p : GridCell w h, f (p.1 + 1, p.2)) = ∑ p : GridCell w h, f p :=
    by simpa [← sub_eq_add_neg] using sum_shift w h f 1 0
  have e8 : (∑ p : GridCell w h, f (p.1 + 1, p.2 + 1)) = ∑ p : GridCell w h, f p :=
    by simpa [← sub_eq_add_neg] using sum_shift w h f 1 1
  calc (∑ p : GridCell w h, neighborSum w h f p)
      = (∑ p : GridCell w h, f (p.1 - 1, p.2 - 1)) + (∑ p : GridCell w h, f (p.1 - 1, p.2)) +
        (∑ p : GridCell w h, f (p.1 - 1, p.2 + 1)) + (∑ p : GridCell w h, f (p.1, p.2 - 1)) +
        (∑ p : GridCell w h, f (p.1, p.2 + 1)) + (∑ p : GridCell w h, f (p.1 + 1, p.2 - 1)) +
        (∑ p : GridCell w h, f (p.1 + 1, p.2)) + (∑ p : GridCell w h, f (p.1 + 1, p.2 + 1)) := by
        simp only [neighborSum, Finset.sum_add_distrib]
    _ = 8 * totalMass w h f := by
        rw [e1, e2, e3, e4, e5, e6, e7, e8]; unfold totalMass; ring

theorem totalMass_fieldStep (w h : ℕ) [NeZero w] [NeZero h] (ev fr : ℚ)
    (f : GridCell w h → ℚ) :
    totalMass w h (fieldStep w h ev fr f) = ev * totalMass w h f := by
  have hsplit : totalMass w h (fieldStep w h ev fr f)
      = (∑ p : GridCell w h, ev * (1 - fr) * f p)
        + ∑ p : GridCell w h, ev * (fr / 8) * neighborSum w h f p := by
    rw [← Finset.sum_add_distrib]
    apply Finset.sum_congr rfl
    intro p _
    show ev * ((1 - fr) * f p + (fr / 8) * neighborSum w h f p) = _
    ring
  rw [hsplit, ← Finset.mul_sum, ← Finset.mul_sum, sum_neighborSum]
  unfold totalMass
  ring

theorem shift_ne_center {q : GridCell 100 100} {u v x y : ZMod 100}
    (hx : x + u = 50) (hy : y + v = 50) (hne : ¬ q = (x, y)) :
    ¬ ((q.1 + u, q.2 + v) : GridCell 100 100) = ((50 : ZMod 100), (50 : ZMod 100)) := by
  intro hc
  apply hne
  have h1 : q.1 + u = (50 : ZMod 100) := congrArg Prod.fst hc
  have h2 : q.2 + v = (50 : ZMod 100) := congrArg Prod.snd hc
  have hx1 : q.1 = x := by linear_combination h1 - hx
  have hy1 : q.2 = y := by linear_combination h2 - hy
  exact Prod.ext_iff.mpr ⟨hx1, hy1⟩

theorem shift_ne_center_fst {q : GridCell 100 100} {u x : ZMod 100}
    (hx : x + u = 50) (hne : ¬ q = (x, 50)) :
    ¬ ((q.1 + u, q.2) : GridCell 100 100) = ((50 : ZMod 100), (50 : ZMod 100)) := by
  intro hc
  apply hne
  have h1 : q.1 + u = (50 : ZMod 100) := congrArg Prod.fst hc
  have h2 : q.2 = (50 : ZMod 100) := congrArg Prod.snd hc
  have hx1 : q.1 = x := by linear_combination h1 - hx
  exact Prod.ext_iff.mpr ⟨hx1, h2⟩

theorem shift_ne_center_snd {q : GridCell 100 100} {v y : ZMod 100}
    (hy : y + v = 50) (hne : ¬ q = (50, y)) :
    ¬ ((q.1, q.2 + v) : GridCell 100 100) = ((50 : ZMod 100), (50 : ZMod 100)) := by
  intro hc
  apply hne
  have h1 : q.1 = (50 : ZMod 100) := congrArg Prod.fst hc
  have h2 : q.2 + v = (50 : ZMod 100) := congrArg Prod.snd hc
  have hy1 : q.2 = y := by linear_combination h2 - hy
  exact Prod.ext_iff.mpr ⟨h1, hy1⟩

/-- Claim C1: one field step applies the combined affine update
`new = evap * ((1-frac)*old + (frac/8)*neighborSum)` with 8-neighbor toroidal
Moore neighborhoods (that is the definition of `fieldStep`, transcribed from
`model.py` lines 285-297); starting from a 100×100 field that is 1 at cell
(50,50) and 0 elsewhere, one step leaves `evap*(1-frac)` at (50,50),
`evap*(frac/8)` at each of the 8 toroidal neighbors of (50,50), and 0 at every
other cell. -/
theorem C1_single_deposit_step (ev fr : ℚ) :
    fieldStep 100 100 ev fr (deltaField 100 100 (50, 50)) (50, 50) = ev * (1 - fr)
    ∧ (∀ q ∈ ([(49, 49), (49, 50), (49, 51), (50, 49), (50, 51), (51, 49), (51, 50), (51, 51)] :
        List (GridCell 100 100)),
        fieldStep 100 100 ev fr (deltaField 100 100 (50, 50)) q = ev * (fr / 8))
    ∧ (∀ q : GridCell 100 100, q ≠ (50, 50) →
        q ∉ ([(49, 49), (49, 50), (49, 51), (50, 49), (50, 51), (51, 49), (51, 50), (51, 51)] :
          List (GridCell 100 100)) →
        fieldStep 100 100 ev fr (deltaField 100 100 (50, 50)) q = 0) := by
  refine ⟨?_, ?_, ?_⟩
  · simp +decide [fieldStep, neighborSum, deltaField]
  · intro q hq
    fin_cases hq <;> simp +decide [fieldStep, neighborSum, deltaField]
  · intro q hne hnm
    simp only [List.mem_cons, List.not_mem_nil, or_false] at hnm
    push_neg at hnm
    obtain ⟨m1, m2, m3, m4, m5, m6, m7, m8⟩ := hnm
    have n1 : ¬ ((q.1 - 1, q.2 - 1) : GridCell 100 100) = ((50 : ZMod 100), 50) := by
      simpa [sub_eq_add_neg] using shift_ne_center (u := -1) (v := -1) (by decide) (by decide) m8
    have n2 : ¬ ((q.1 - 1, q.2) : GridCell 100 100) = ((50 : ZMod 100), 50) := by
      simpa [sub_eq_add_neg] using shift_ne_center_fst (u := -1) (by decide) m7
    have n3 : ¬ ((q.1 - 1, q.2 + 1) : GridCell 100 100) = ((50 : ZMod 100), 50) := by
      simpa [sub_eq_add_neg] using shift_ne_center (u := -1) (v := 1) (by decide) (by decide) m6
    have n4 : ¬ ((q.1, q.2 - 1) : GridCell 100 100) = ((50 : ZMod 100), 50) := by
      simpa [sub_eq_add_neg] using shift_ne_center_snd (v := -1) (by decide) m5
    have n5 : ¬ ((q.1, q.2 + 1) : GridCell 100 100) = ((50 : ZMod 100), 50) := by
      simpa using shift_ne_center_snd (v := 1) (by decide) m4
    have n6 : ¬ ((q.1 + 1, q.2 - 1) : GridCell 100 100) = ((50 : ZMod 100), 50) := by
      simpa [sub_eq_add_neg] using shift_ne_center (u := 1) (v := -1) (by decide) (by decide) m3
    have n7 : ¬ ((q.1 + 1, q.2) : GridCell 100 100) = ((50 : ZMod 100), 50) := by
      simpa using shift_ne_center_fst (u := 1) (by decide) m2
    have n8 : ¬ ((q.1 + 1, q.2 + 1) : GridCell 100 100) = ((50 : ZMod 100), 50) := by
      simpa using shift_ne_center (u := 1) (v := 1) (by decide) (by decide) m1
    simp only [fieldStep, neighborSum, deltaField,
      if_neg hne, if_neg n1, if_neg n2, if_neg n3, if_neg n4, if_neg n5, if_neg n6,
      if_neg n7, if_neg n8]
    ring

theorem C1_single_deposit_step_witness :
    ((49, 49) : GridCell 100 100) ∈
      ([(49, 49), (49, 50), (49, 51), (50, 49), (50, 51), (51, 49), (51, 50), (51, 51)] :
        List (GridCell 100 100))
    ∧ fieldStep 100 100 (19/20) 1 (deltaField 100 100 (50, 50)) (49, 49) = 19/20 * (1 / 8)
    ∧ fieldStep 100 100 (19/20) 1 (deltaField 100 100 (50, 50)) (0, 0) = 0 := by
  refine ⟨by decide, ?_, ?_⟩
  · exact (C1_single_deposit_step (19/20) 1).2.1 (49, 49) (by decide)
  · exact (C1_single_deposit_step (19/20) 1).2.2 (0, 0) (by decide) (by decide)

/-- Claim C8 (as stated, refuted): on the all-zero field (a legitimate field
state with no deposits — it is the initial state of every channel, and the
drug channel never receives a deposit), total mass after one field step equals
total mass before it, so the claimed strict decrease fails. -/
theorem C8_counterexample :
    ¬ (totalMass 3 3 (fieldStep 3 3 evapRate (diffusionRates 0) (fun _ => 0))
        < totalMass 3 3 (fun _ => 0)) := by
  have h0 : totalMass 3 3 (fun _ : GridCell 3 3 => (0:ℚ)) = 0 := by
    simp [totalMass]
  have h1 : totalMass 3 3 (fieldStep 3 3 evapRate (diffusionRates 0) (fun _ => 0)) = 0 := by
    rw [totalMass_fieldStep, h0, mul_zero]
  rw [h0, h1]
  exact lt_irrefl 0

/-- Claim C8, amended: for every channel, one field step scales the total mass
of the channel exactly by the evaporation factor 0.95 (local diffusion is
mass-preserving), hence total mass strictly decreases whenever it is positive
(not on zero-mass fields); and a spatially uniform channel stays spatially
uniform, with value scaled by 0.95. -/
theorem C8_mass_evaporation (w h : ℕ) [NeZero w] [NeZero h] (i : Fin 5)
    (f : GridCell w h → ℚ) :
    totalMass w h (fieldStep w h evapRate (diffusionRates i) f)
      = evapRate * totalMass w h f
    ∧ (0 < totalMass w h f →
        totalMass w h (fieldStep w h evapRate (diffusionRates i) f) < totalMass w h f)
    ∧ (∀ c : ℚ, (∀ p, f p = c) →
        ∀ p, fieldStep w h evapRate (diffusionRates i) f p = evapRate * c) := by
  refine ⟨totalMass_fieldStep w h _ _ f, ?_, ?_⟩
  · intro hpos
    rw [totalMass_fieldStep]
    have hev : evapRate = 19/20 := by norm_num [evapRate]
    rw [hev]
    linarith
  · intro c hc p
    simp only [fieldStep, neighborSum, hc]
    ring

theorem C8_mass_evaporation_witness :
    (0 : ℚ) < totalMass 3 3 (fun _ => 1)
    ∧ totalMass 3 3 (fieldStep 3 3 evapRate (diffusionRates 0) (fun _ => 1))
        < totalMass 3 3 (fun _ => 1)
    ∧ fieldStep 3 3 evapRate (diffusionRates 0) (fun _ => 1) (0, 0) = evapRate * 1 := by
  have hT : totalMass 3 3 (fun _ : GridCell 3 3 => (1:ℚ)) = 9 := by
    simp [totalMass, Finset.card_univ]
  refine ⟨by rw [hT]; norm_num, ?_, ?_⟩
  · exact (C8_mass_evaporation 3 3 0 _).2.1 (by rw [hT]; norm_num)
  · exact (C8_mass_evaporation 3 3 0 _).2.2 1 (fun _ => rfl) (0, 0)

/-- Claim C2 (as stated, refuted): `update_odor_patches` does NOT diffuse and
evaporate the field before agents deposit into it — the slug deposits happen
first (`model.py` lines 270-278) and only then is every channel diffused and
evaporated (lines 280-297).  The source-order update differs from the
spec-order update already on a 3×3 zero field with a single slug of size 10 at
cell (1,1): under the source order the deposit is spread to the neighbors of
(1,1) by the same tick's diffusion; under the spec order it is not. -/
theorem C2_counterexample :
    ¬ (update_odor_patches 3 3 false 20 [((1, 1), 10)] (fun _ _ => 0)
        = update_odor_patches_spec_order 3 3 false 20 [((1, 1), 10)] (fun _ _ => 0)) := by
  intro hEq
  have h := congrFun (congrFun hEq 4) ((0 : ZMod 3), (0 : ZMod 3))
  simp +decide [update_odor_patches, update_odor_patches_spec_order, depositSlugOdors,
    depositAt, slugOdor, fieldStep, neighborSum, diffusionRates, evapRate] at h
  norm_num at h

/-- Claim C2, amended: within a tick the slug-odor deposits are applied to the
field BEFORE diffusion and evaporation (`update_odor_patches` deposits first,
then diffuses), and this whole field update runs before the agents sense, so
the field a slug senses in a tick already contains mass originating from its
own deposit of that same tick: from a zero field, after `update_odor_patches`
with one slug of size `s > 0` at cell (1,1), the pleur channel at the slug's
own cell holds `0.95 * (1/2) * (s/20) > 0`, whereas without that slug's
deposit it holds 0. -/
theorem C2_deposit_before_diffusion (s : ℚ) (hs : 0 < s) :
    update_odor_patches 3 3 false 20 [((1, 1), s)] (fun _ _ => 0) 4 (1, 1)
      = evapRate * ((1 - 1/2) * (s / 20))
    ∧ 0 < update_odor_patches 3 3 false 20 [((1, 1), s)] (fun _ _ => 0) 4 (1, 1)
    ∧ update_odor_patches 3 3 false 20 [] (fun _ _ => 0) 4 (1, 1) = 0 := by
  have hval : update_odor_patches 3 3 false 20 [((1, 1), s)] (fun _ _ => 0) 4 (1, 1)
      = evapRate * ((1 - 1/2) * (s / 20)) := by
    simp +decide [update_odor_patches, depositSlugOdors, depositAt, slugOdor,
      fieldStep, neighborSum, diffusionRates]
    norm_num
  refine ⟨hval, ?_, ?_⟩
  · rw [hval]
    have hev : evapRate = 19/20 := by norm_num [evapRate]
    rw [hev]
    nlinarith
  · simp [update_odor_patches, depositSlugOdors, depositAt, slugOdor,
      fieldStep, neighborSum]

theorem C2_deposit_before_diffusion_witness :
    (0 : ℚ) < 10
    ∧ (update_odor_patches 3 3 false 20 [((1, 1), 10)] (fun _ _ => 0) 4 (1, 1)
        = evapRate * ((1 - 1/2) * (10 / 20))
      ∧ 0 < update_odor_patches 3 3 false 20 [((1, 1), 10)] (fun _ _ => 0) 4 (1, 1)
      ∧ update_odor_patches 3 3 false 20 [] (fun _ _ => 0) 4 (1, 1) = 0) :=
  ⟨by norm_num, C2_deposit_before_diffusion 10 (by norm_num)⟩

/-! ## Forager state (`agents.py`, `CyberslugAgent`) -/

/-- The numeric per-tick state of a `CyberslugAgent` (`agents.py` lines
127-253).  Pose, path and the social-biting bookkeeping are owned by the
scheduler/space layer and are not read by the embedded update functions, so
they are not part of this record.  The three sensor lists
(`sns_odors_left/right/sns_odors`, channels [betaine, hermi, flab, drug,
pleur]) are written by `update_sensors` before `update_state` runs; here they
are plain state fields. -/
structure SlugState where
  size : ℚ
  nutrition : ℚ
  incentive : ℚ
  satiation : ℚ
  app_state : ℚ
  app_state_switch : ℚ
  somatic_map : ℚ
  Vh_rp : ℚ
  Vh_rn : ℚ
  Vh_n : ℚ
  Vf_rp : ℚ
  Vf_rn : ℚ
  Vf_n : ℚ
  Vh_rp0 : ℚ
  Vh_rn0 : ℚ
  Vh_n0 : ℚ
  Vf_rp0 : ℚ
  Vf_rn0 : ℚ
  Vf_n0 : ℚ
  Wh_rp : ℚ
  Wh_rn : ℚ
  Wh_n : ℚ
  Wf_rp : ℚ
  Wf_rn : ℚ
  Wf_n : ℚ
  Wh_rp_saturated : ℚ
  Wh_rn_saturated : ℚ
  Wh_n_saturated : ℚ
  Wf_rp_saturated : ℚ
  Wf_rn_saturated : ℚ
  Wf_n_saturated : ℚ
  CS1 : ℚ
  CS2 : ℚ
  R_pos : ℚ
  R_neg : ℚ
  NR : ℚ
  NR_spontaneous : ℚ
  R_pos_input : ℚ
  R_neg_input : ℚ
  sns_odors_left : Fin 5 → ℚ
  sns_odors_right : Fin 5 → ℚ
  sns_odors : Fin 5 → ℚ
  sns_pain_left : ℚ
  sns_pain_right : ℚ
  sns_pain_caud : ℚ
  sns_pain_total : ℚ
  pain : ℚ
  pain_switch : ℚ
  spontaneous_pain : ℚ
  reward : ℚ
  reward_neg : ℚ
  encounter_timer : ℕ
  hermi_counter : ℕ
  flab_counter : ℕ
  fauxflab_counter : ℕ
  Is : ℚ
  Im : ℚ
  S : ℚ
  IN : ℚ
  M : ℚ
  M0 : ℚ
  W1 : ℚ
  W2 : ℚ
  W3 : ℚ
  dW3 : ℚ
  proboscis_phase : ℕ
  proboscis_extended : Bool

/-- The model-level configuration read by the forager update (`model.py`
lines 88-98). -/
structure ModelParams where
  max_slug_size : ℚ
  encounter_cooldown : ℕ
  fix_satiation_override : Bool
  fix_satiation_value : ℚ

/-- The default model configuration (`model.py` lines 50-98):
`max_slug_size = 20`, `encounter_cooldown = 10`, satiation not overridden. -/
def defaultParams : ModelParams :=
  { max_slug_size := 20, encounter_cooldown := 10,
    fix_satiation_override := false, fix_satiation_value := 1 }

/-- The prey encounter produced by `check_encounters` (`agents.py` lines
469-496): nothing, or one prey type. -/
inductive Encounter where
  | none
  | hermi
  | flab
  | fauxflab
deriving DecidableEq

/-- The state of a freshly constructed `CyberslugAgent` with initial size
`size0` (`agents.py` `__init__`, lines 127-253); in the source
`size0 = 5 + uniform(0, 10)` and `M0 = size0 / 4`, `W3 = 0.5`, `W1 = W2 = 1`,
`nutrition = satiation = 0.5`, `NR_spontaneous = 1`, `spontaneous_pain = 2`,
everything else zero. -/
def initState (size0 : ℚ) : SlugState where
  size := size0
  nutrition := 0.5
  incentive := 0
  satiation := 0.5
  app_state := 0
  app_state_switch := 0
  somatic_map := 0
  Vh_rp := 0
  Vh_rn := 0
  Vh_n := 0
  Vf_rp := 0
  Vf_rn := 0
  Vf_n := 0
  Vh_rp0 := 0
  Vh_rn0 := 0
  Vh_n0 := 0
  Vf_rp0 := 0
  Vf_rn0 := 0
  Vf_n0 := 0
  Wh_rp := 0
  Wh_rn := 0
  Wh_n := 0
  Wf_rp := 0
  Wf_rn := 0
  Wf_n := 0
  Wh_rp_saturated := 0
  Wh_rn_saturated := 0
  Wh_n_saturated := 0
  Wf_rp_saturated := 0
  Wf_rn_saturated := 0
  Wf_n_saturated := 0
  CS1 := 0
  CS2 := 0
  R_pos := 0
  R_neg := 0
  NR := 0
  NR_spontaneous := 1
  R_pos_input := 0
  R_neg_input := 0
  sns_odors_left := fun _ => 0
  sns_odors_right := fun _ => 0
  sns_odors := fun _ => 0
  sns_pain_left := 0
  sns_pain_right := 0
  sns_pain_caud := 0
  sns_pain_total := 0
  pain := 0
  pain_switch := 0
  spontaneous_pain := 2
  reward := 0
  reward_neg := 0
  encounter_timer := 0
  hermi_counter := 0
  flab_counter := 0
  fauxflab_counter := 0
  Is := 0
  Im := 0
  S := 0
  IN := 0
  M := 0
  M0 := size0 / 4
  W1 := 1
  W2 := 1
  W3 := 0.5
  dW3 := 0
  proboscis_phase := 0
  proboscis_extended := false

/-- `calc_SH` (`agents.py` lines 597-610): habituation/sensitization to
conspecific odor.  `M` is computed from the OLD `W3`; then `W3` is updated and
clamped into [0.1, 1.0]. -/
def calc_SH (s : SlugState) : SlugState :=
  let Is := (s.sns_odors_left 4 + s.sns_odors_right 4) / 2
  let Im := (s.sns_pain_left + s.sns_pain_right) / 2
  let S := s.W1 * Is
  let IN := s.W2 * Im
  let M := s.W3 * S
  let dW3 := ((s.M0 / (S + 0.01)) - (M / (S + 0.01)) + 10 * IN) / 10
  let W3 := max 0.1 (min 1.0 (s.W3 + dW3))
  { s with Is := Is, Im := Im, S := S, IN := IN, M := M, dW3 := dW3, W3 := W3 }

/-- The prey-encounter block of `update_state` (`agents.py` lines 507-534):
`hermi` and `flab` add nutrition and grow size unconditionally and, when the
cooldown timer is zero, count the capture, arm the timer and set the reward
input; `fauxflab` adds nutrition unconditionally (source comment: "Faux
provides nutrition but triggers learning") and, when the timer is zero, counts
and sets the positive reward input (source comment: "NetLogo: fauxflab
triggers R_pos_input (REMOVE THIS in final version)"). -/
def applyEncounter : ModelParams → Encounter → SlugState → SlugState
  | _, .none, s => s
  | P, .hermi, s =>
    let s1 := { s with nutrition := s.nutrition + 0.3,
                       size := min (s.size + 0.1) P.max_slug_size }
    if s1.encounter_timer = 0 then
      { s1 with hermi_counter := s1.hermi_counter + 1,
                encounter_timer := P.encounter_cooldown,
                R_pos_input := s1.R_pos_input + 2 }
    else s1
  | P, .flab, s =>
    let s1 := { s with nutrition := s.nutrition + 0.3,
                       size := min (s.size + 0.1) P.max_slug_size }
    if s1.encounter_timer = 0 then
      { s1 with flab_counter := s1.flab_counter + 1,
                encounter_timer := P.encounter_cooldown,
                R_neg_input := s1.R_neg_input + 2 }
    else s1
  | P, .fauxflab, s =>
    let s1 := { s with nutrition := s.nutrition + 0.3 }
    if s1.encounter_timer = 0 then
      { s1 with fauxflab_counter := s1.fauxflab_counter + 1,
                encounter_timer := P.encounter_cooldown,
                R_pos_input := s1.R_pos_input + 2 }
    else s1

/-- `calc_learning_circuit` (`agents.py` lines 612-745), with `e` standing for
`math.exp`.  CS traces are set from the current bilateral sensed odors when
positive, decayed by 0.8 (and again by 0.9 at the very end); reward inputs
decay by 0.8; the three reward neurons are logistic units; association strengths
get `(1-W)`-gated increments, a constant 0.08 forgetting decrement, and are
clamped from below by the baselines stored in the state; weights are
recomputed, the saturation flags latch above 0.83, and the dynamic baselines
are recomputed from the flags and the competing-pathway activity. -/
def calc_learning_circuit (e : ℚ → ℚ) (s : SlugState) : SlugState :=
  let sns_hermi := s.sns_odors 1
  let sns_flab := s.sns_odors 2
  let CS1a := if sns_hermi > 0 then sns_hermi else s.CS1
  let CS2a := if sns_flab > 0 then sns_flab else s.CS2
  let CS1 := CS1a * 0.8
  let CS2 := CS2a * 0.8
  let R_pos_input := s.R_pos_input * 0.8
  let R_neg_input := s.R_neg_input * 0.8
  let R_pos := 1 / (1 + e (-10 * (s.Wh_rp * CS1 + s.Wf_rp * CS2 - 0.5 * s.NR + R_pos_input) + 8))
  let R_neg := 1 / (1 + e (-10 * (s.Wf_rn * CS2 + s.Wh_rn * CS1 - 0.5 * s.NR + R_neg_input) + 8))
  let NR := 1 / (1 + e (-4 * (s.Wh_n * CS1 + s.Wf_n * CS2 - R_pos - R_neg
    + 2 * s.NR_spontaneous) + 7))
  let dVh_rp := 0.1 * CS1 * R_pos
  let dVh_rn := 0.1 * CS1 * R_neg
  let dVf_rp := 0.1 * CS2 * R_pos
  let dVf_rn := 0.1 * CS2 * R_neg
  let dVh_n := 0.1 * CS1 * NR
  let dVf_n := 0.1 * CS2 * NR
  let Vh_rp := max (s.Vh_rp + (1 - s.Wh_rp) * dVh_rp - 0.08) s.Vh_rp0
  let Vh_rn := max (s.Vh_rn + (1 - s.Wh_rn) * dVh_rn - 0.08) s.Vh_rn0
  let Vf_rp := max (s.Vf_rp + (1 - s.Wf_rp) * dVf_rp - 0.08) s.Vf_rp0
  let Vf_rn := max (s.Vf_rn + (1 - s.Wf_rn) * dVf_rn - 0.08) s.Vf_rn0
  let Vh_n := max (s.Vh_n + (1 - s.Wh_n) * dVh_n - 0.08) s.Vh_n0
  let Vf_n := max (s.Vf_n + (1 - s.Wf_n) * dVf_n - 0.08) s.Vf_n0
  let Wh_rp := 1 / (1 + e (-10 * Vh_rp + 8))
  let Wh_rn := 1 / (1 + e (-10 * Vh_rn + 8))
  let Wf_rp := 1 / (1 + e (-10 * Vf_rp + 8))
  let Wf_rn := 1 / (1 + e (-10 * Vf_rn + 8))
  let Wh_n := 1 / (1 + e (-10 * Vh_n + 8))
  let Wf_n := 1 / (1 + e (-10 * Vf_n + 8))
  let Wh_rp_saturated := if Wh_rp > 0.83 then 1 else s.Wh_rp_saturated
  let Wh_rn_saturated := if Wh_rn > 0.83 then 1 else s.Wh_rn_saturated
  let Wf_rp_saturated := if Wf_rp > 0.83 then 1 else s.Wf_rp_saturated
  let Wf_rn_saturated := if Wf_rn > 0.83 then 1 else s.Wf_rn_saturated
  let Wh_n_saturated := if Wh_n > 0.83 then 1 else s.Wh_n_saturated
  let Wf_n_saturated := if Wf_n > 0.83 then 1 else s.Wf_n_saturated
  let Vh_rp0 := Wh_rp_saturated * (0.7 - 0.5 / (1 + e (-5 * (CS1 * R_neg + 0.2 * CS1 * NR) + 4)))
  let Vh_rn0 := Wh_rn_saturated * (0.7 - 0.5 / (1 + e (-5 * (CS1 * R_pos + 0.2 * CS1 * NR) + 4)))
  let Vf_rp0 := Wf_rp_saturated * (0.7 - 0.5 / (1 + e (-5 * (CS2 * R_neg + 0.2 * CS2 * NR) + 4)))
  let Vf_rn0 := Wf_rn_saturated * (0.7 - 0.5 / (1 + e (-5 * (CS2 * R_pos + 0.2 * CS2 * NR) + 4)))
  let Vh_n0 := Wh_n_saturated * (0.7 - 0.5 / (1 + e (-5 * (CS1 * R_neg + 0.2 * CS1 * R_pos) + 4)))
  let Vf_n0 := Wf_n_saturated * (0.7 - 0.5 / (1 + e (-5 * (CS2 * R_neg + 0.2 * CS2 * R_pos) + 4)))
  let CS1b := CS1 * 0.9
  let CS2b := CS2 * 0.9
  { s with CS1 := CS1b, CS2 := CS2b,
           R_pos_input := R_pos_input, R_neg_input := R_neg_input,
           R_pos := R_pos, R_neg := R_neg, NR := NR,
           Vh_rp := Vh_rp, Vh_rn := Vh_rn, Vf_rp := Vf_rp, Vf_rn := Vf_rn,
           Vh_n := Vh_n, Vf_n := Vf_n,
           Wh_rp := Wh_rp, Wh_rn := Wh_rn, Wf_rp := Wf_rp, Wf_rn := Wf_rn,
           Wh_n := Wh_n, Wf_n := Wf_n,
           Wh_rp_saturated := Wh_rp_saturated, Wh_rn_saturated := Wh_rn_saturated,
           Wf_rp_saturated := Wf_rp_saturated, Wf_rn_saturated := Wf_rn_saturated,
           Wh_n_saturated := Wh_n_saturated, Wf_n_saturated := Wf_n_saturated,
           Vh_rp0 := Vh_rp0, Vh_rn0 := Vh_rn0, Vf_rp0 := Vf_rp0, Vf_rn0 := Vf_rn0,
           Vh_n0 := Vh_n0, Vf_n0 := Vf_n0 }

/-- The nutrition value at the point where satiation is computed inside
`update_state`: the encounter block may have added 0.3, then
`self.nutrition = self.nutrition - 0.0005 * self.nutrition` (`agents.py`
line 541). -/
def nutritionAfterFeed (P : ModelParams) (enc : Encounter) (s : SlugState) : ℚ :=
  let s2 := applyEncounter P enc (calc_SH s)
  s2.nutrition - 0.0005 * s2.nutrition

/-- The satiation value computed inside `update_state` (`agents.py` lines
544-547): the configured override value when `fix_satiation_override` is set,
otherwise `1 / (1 + 0.7 * exp(-4*nutrition + 2))^2`. -/
def satiationValue (e : ℚ → ℚ) (P : ModelParams) (enc : Encounter) (s : SlugState) : ℚ :=
  if P.fix_satiation_override then P.fix_satiation_value
  else 1 / (1 + 0.7 * e (-4 * nutritionAfterFeed P enc s + 2)) ^ 2

/-- The denominator of the positive-reward expression (`agents.py` lines
550-551): `1 + (0.5*(Vh_rp*sns_hermi) + 0*(Vf_rp*sns_flab)) - 0.008/satiation`.
In Python this expression raises `ZeroDivisionError` when it is 0 (and
`0.008/satiation` raises when satiation is 0); in this total embedding it is
simply a rational value whose non-vanishing is the claim's safety property. -/
def rewardDenom (e : ℚ → ℚ) (P : ModelParams) (enc : Encounter) (s : SlugState) : ℚ :=
  let s2 := applyEncounter P enc (calc_SH s)
  1 + (0.5 * (s2.Vh_rp * s2.sns_odors 1) + 0 * (s2.Vf_rp * s2.sns_odors 2))
    - 0.008 / satiationValue e P enc s

/-- `update_state` (`agents.py` lines 498-595), with `e` standing for
`math.exp`: habituation (`calc_SH`), the prey-encounter block, pain, nutrition
decay, satiation, reward, negative reward, incentive, the somatic map, the
appetitive state and its switch, the turn angle (the returned value), the
learning circuit, and finally the encounter-timer decrement. -/
def update_state (e : ℚ → ℚ) (P : ModelParams) (enc : Encounter) (s0 : SlugState) :
    SlugState × ℚ :=
  let s2 := applyEncounter P enc (calc_SH s0)
  let pain := 10 / (1 + e (-2 * (s2.sns_pain_total + s2.spontaneous_pain) + 10))
  let pain_switch := 1 - 2 / (1 + e (-10 * (s2.sns_pain_total - 0.2)))
  let nutrition := nutritionAfterFeed P enc s0
  let satiation := satiationValue e P enc s0
  let sns_betaine := s2.sns_odors 0
  let sns_hermi := s2.sns_odors 1
  let sns_flab := s2.sns_odors 2
  let reward := sns_betaine / rewardDenom e P enc s0
    + 1.32 * (s2.Vh_rp * sns_hermi) + 0 * (s2.Vf_rp * sns_flab)
  let reward_neg := 1.32 * s2.Vf_rn * sns_flab + s2.sns_pain_total
  let incentive := reward - reward_neg
  let H := sns_hermi - sns_flab - 0.03 * s2.M - s2.sns_pain_total
  let F := sns_flab - sns_hermi - 0.03 * s2.M - s2.sns_pain_total
  let G := s2.M - sns_hermi - sns_flab - s2.sns_pain_total
  let Pn := s2.sns_pain_total
  let somatic_map := -(
    (s2.sns_odors_left 1 - s2.sns_odors_right 1) / (1 + e (-50 * H)) +
    (s2.sns_odors_left 2 - s2.sns_odors_right 2) / (1 + e (-50 * F)) +
    (s2.sns_odors_left 4 - s2.sns_odors_right 4) / (1 + e (-50 * G)) +
    (s2.sns_pain_left - s2.sns_pain_right) / (1 + e (-50 * Pn)))
  let app_state := 0.01 + (1 / (1 + e (-(incentive * 0.6 + 0.9 * s2.M
    + 10 * satiation * (sns_betaine - 5.4)))) + 0.05 * (s2.app_state_switch - 1))
  let app_state_switch := (-2) / (1 + e (-100 * (app_state - 0.245))) + 1
  let turn_angle := app_state_switch * 2 * ((1 / (1 + e (3 * somatic_map))) - 0.5)
  let s3 := { s2 with pain := pain, pain_switch := pain_switch,
                      nutrition := nutrition, satiation := satiation,
                      reward := reward, reward_neg := reward_neg,
                      incentive := incentive, somatic_map := somatic_map,
                      app_state := app_state, app_state_switch := app_state_switch }
  let s4 := calc_learning_circuit e s3
  let timer := if 0 < s4.encounter_timer then s4.encounter_timer - 1 else s4.encounter_timer
  ({ s4 with encounter_timer := timer }, turn_angle)

/-- `update_proboscis` (`agents.py` lines 407-419): extend (advancing the
phase cyclically mod 20) when either bilateral betaine reading exceeds 5.5 or
`M > 1.3 * M0`, otherwise reset the phase to 0 and retract. -/
def update_proboscis (s : SlugState) : SlugState :=
  if s.sns_odors_left 0 > 5.5 ∨ s.sns_odors_right 0 > 5.5 ∨ s.M > 1.3 * s.M0 then
    { s with proboscis_phase := (s.proboscis_phase + 1) % 20, proboscis_extended := true }
  else
    { s with proboscis_phase := 0, proboscis_extended := false }

/-- The proboscis-extension trigger condition of `update_proboscis`. -/
def proboscisCondition (s : SlugState) : Prop :=
  s.sns_odors_left 0 > 5.5 ∨ s.sns_odors_right 0 > 5.5 ∨ s.M > 1.3 * s.M0

/-! ### Helper lemmas for the sigmoid expressions -/

theorem one_div_one_add_pos {u : ℚ} (hu : 0 < u) : 0 < 1 / (1 + u) := by positivity

theorem one_div_one_add_lt_one {u : ℚ} (hu : 0 < u) : 1 / (1 + u) < 1 := by
  rw [div_lt_one (by linarith)]
  linarith

/-- A concrete learning state: some pathway saturated earlier (its latch
`Wh_rp_saturated = 1` never resets), its association strength meanwhile decayed
down to the stored baseline 0.1, and the hermi odor no longer sensed. -/
def sSat : SlugState :=
  { initState 5 with Vh_rp := 0.1, Vh_rp0 := 0.1, Wh_rp_saturated := 1 }

/-- Claim C3 (as stated, refuted): after a learning-circuit update the
association strength V is NOT always at or above the freshly recomputed
dynamic baseline V0.  The update clamps V only against the baseline stored at
the start of the update (`agents.py` lines 688-693) and recomputes the
baseline afterwards (lines 719-741); on `sSat` (saturation latch set, hermi CS
trace zero) the recomputed baseline lands strictly above the clamped V:
`Vh_rp = 0.1 < Vh_rp0` after the update.  Here `math.exp` is instantiated with
the positive function constantly 1; the inequality holds for any positive
choice since the recomputed baseline is then above 0.2. -/
theorem C3_counterexample :
    (calc_learning_circuit (fun _ => 1) sSat).Vh_rp
      < (calc_learning_circuit (fun _ => 1) sSat).Vh_rp0 := by
  norm_num [calc_learning_circuit, sSat, initState, max_def]

/-- Claim C3, amended: for every state and every (odor, pathway) pair, after a
learning-circuit update every synaptic weight W is strictly between 0 and 1
(it is a logistic readout and `exp` is positive), and every association
strength V is at or above the dynamic baseline V0 that was current when the
update began (the clamp `V = max(V, V0)` uses the stored baseline); V can end
below the baseline recomputed at the end of the same update. -/
theorem C3_weights_and_baselines (e : ℚ → ℚ) (he : ∀ x, 0 < e x) (s : SlugState) :
    (0 < (calc_learning_circuit e s).Wh_rp ∧ (calc_learning_circuit e s).Wh_rp < 1)
    ∧ (0 < (calc_learning_circuit e s).Wh_rn ∧ (calc_learning_circuit e s).Wh_rn < 1)
    ∧ (0 < (calc_learning_circuit e s).Wh_n ∧ (calc_learning_circuit e s).Wh_n < 1)
    ∧ (0 < (calc_learning_circuit e s).Wf_rp ∧ (calc_learning_circuit e s).Wf_rp < 1)
    ∧ (0 < (calc_learning_circuit e s).Wf_rn ∧ (calc_learning_circuit e s).Wf_rn < 1)
    ∧ (0 < (calc_learning_circuit e s).Wf_n ∧ (calc_learning_circuit e s).Wf_n < 1)
    ∧ s.Vh_rp0 ≤ (calc_learning_circuit e s).Vh_rp
    ∧ s.Vh_rn0 ≤ (calc_learning_circuit e s).Vh_rn
    ∧ s.Vh_n0 ≤ (calc_learning_circuit e s).Vh_n
    ∧ s.Vf_rp0 ≤ (calc_learning_circuit e s).Vf_rp
    ∧ s.Vf_rn0 ≤ (calc_learning_circuit e s).Vf_rn
    ∧ s.Vf_n0 ≤ (calc_learning_circuit e s).Vf_n := by
  simp only [calc_learning_circuit]
  exact ⟨⟨one_div_one_add_pos (he _), one_div_one_add_lt_one (he _)⟩,
    ⟨one_div_one_add_pos (he _), one_div_one_add_lt_one (he _)⟩,
    ⟨one_div_one_add_pos (he _), one_div_one_add_lt_one (he _)⟩,
    ⟨one_div_one_add_pos (he _), one_div_one_add_lt_one (he _)⟩,
    ⟨one_div_one_add_pos (he _), one_div_one_add_lt_one (he _)⟩,
    ⟨one_div_one_add_pos (he _), one_div_one_add_lt_one (he _)⟩,
    le_max_right _ _, le_max_right _ _, le_max_right _ _,
    le_max_right _ _, le_max_right _ _, le_max_right _ _⟩

theorem C3_weights_and_baselines_witness :
    (0 < (calc_learning_circuit (fun _ => 1) (initState 5)).Wh_rp
      ∧ (calc_learning_circuit (fun _ => 1) (initState 5)).Wh_rp < 1)
    ∧ (initState 5).Vh_rp0 ≤ (calc_learning_circuit (fun _ => 1) (initState 5)).Vh_rp :=
  ⟨(C3_weights_and_baselines (fun _ => 1) (fun _ => by norm_num) (initState 5)).1,
   (C3_weights_and_baselines (fun _ => 1) (fun _ => by norm_num) (initState 5)).2.2.2.2.2.2.1⟩

/-! ### Case lemmas for the encounter block -/

theorem applyEncounter_none (P : ModelParams) (s : SlugState) :
    applyEncounter P .none s = s := rfl

theorem applyEncounter_hermi_timer_ne (P : ModelParams) (s : SlugState)
    (h : s.encounter_timer ≠ 0) :
    applyEncounter P .hermi s
      = { s with nutrition := s.nutrition + 0.3,
                 size := min (s.size + 0.1) P.max_slug_size } := by
  simp only [applyEncounter]
  split
  · rename_i hc
    exact absurd (by simpa using hc) h
  · rfl

theorem applyEncounter_hermi_timer_eq (P : ModelParams) (s : SlugState)
    (h : s.encounter_timer = 0) :
    applyEncounter P .hermi s
      = { s with nutrition := s.nutrition + 0.3,
                 size := min (s.size + 0.1) P.max_slug_size,
                 hermi_counter := s.hermi_counter + 1,
                 encounter_timer := P.encounter_cooldown,
                 R_pos_input := s.R_pos_input + 2 } := by
  simp only [applyEncounter]
  split
  · rfl
  · rename_i hc
    exact absurd (by simpa using h) hc

theorem applyEncounter_flab_timer_ne (P : ModelParams) (s : SlugState)
    (h : s.encounter_timer ≠ 0) :
    applyEncounter P .flab s
      = { s with nutrition := s.nutrition + 0.3,
                 size := min (s.size + 0.1) P.max_slug_size } := by
  simp only [applyEncounter]
  split
  · rename_i hc
    exact absurd (by simpa using hc) h
  · rfl

theorem applyEncounter_flab_timer_eq (P : ModelParams) (s : SlugState)
    (h : s.encounter_timer = 0) :
    applyEncounter P .flab s
      = { s with nutrition := s.nutrition + 0.3,
                 size := min (s.size + 0.1) P.max_slug_size,
                 flab_counter := s.flab_counter + 1,
                 encounter_timer := P.encounter_cooldown,
                 R_neg_input := s.R_neg_input + 2 } := by
  simp only [applyEncounter]
  split
  · rfl
  · rename_i hc
    exact absurd (by simpa using h) hc

theorem applyEncounter_fauxflab_timer_ne (P : ModelParams) (s : SlugState)
    (h : s.encounter_timer ≠ 0) :
    applyEncounter P .fauxflab s = { s with nutrition := s.nutrition + 0.3 } := by
  simp only [applyEncounter]
  split
  · rename_i hc
    exact absurd (by simpa using hc) h
  · rfl

theorem applyEncounter_fauxflab_timer_eq (P : ModelParams) (s : SlugState)
    (h : s.encounter_timer = 0) :
    applyEncounter P .fauxflab s
      = { s with nutrition := s.nutrition + 0.3,
                 fauxflab_counter := s.fauxflab_counter + 1,
                 encounter_timer := P.encounter_cooldown,
                 R_pos_input := s.R_pos_input + 2 } := by
  simp only [applyEncounter]
  split
  · rfl
  · rename_i hc
    exact absurd (by simpa using h) hc

/-- A state in the middle of the encounter cooldown window (timer at 5 of the
default 10). -/
def sTimer : SlugState := { initState 5 with encounter_timer := 5 }

/-- Claim C4 (as stated, refuted): a capture detected while the cooldown timer
is nonzero does NOT leave the forager's nutrition unchanged — the
`nutrition += 0.3` and size growth of the encounter block sit before the
cooldown gate (`agents.py` lines 508-510), only the counter, timer and reward
input are gated (lines 511-515).  With the timer at 5, a hermi detection
leaves nutrition 0.7996 after the tick instead of 0.49975. -/
theorem C4_counterexample :
    (update_state (fun _ => 1) defaultParams .hermi sTimer).1.nutrition
      ≠ (update_state (fun _ => 1) defaultParams .none sTimer).1.nutrition := by
  have h1 : (update_state (fun _ => 1) defaultParams .hermi sTimer).1.nutrition
      = nutritionAfterFeed defaultParams .hermi sTimer := rfl
  have h2 : (update_state (fun _ => 1) defaultParams .none sTimer).1.nutrition
      = nutritionAfterFeed defaultParams .none sTimer := rfl
  rw [h1, h2]
  norm_num [nutritionAfterFeed, applyEncounter, calc_SH, sTimer, initState]

/-- Claim C4, amended: when a capture of any prey type is detected while the
encounter cooldown timer is nonzero, all three prey counters, both reward-input
accumulators and the timer evolve exactly as in a tick with no capture; but
nutrition still increases by 0.3 (before the same tick's multiplicative decay)
on every detection regardless of the cooldown, and size still grows by 0.1 up
to the cap for hermi and flab detections (fauxflab never changes size). -/
theorem C4_cooldown_effects (e : ℚ → ℚ) (P : ModelParams) (enc : Encounter)
    (s : SlugState) (henc : enc ≠ .none) (h : s.encounter_timer ≠ 0) :
    (update_state e P enc s).1.hermi_counter
      = (update_state e P .none s).1.hermi_counter
    ∧ (update_state e P enc s).1.flab_counter
      = (update_state e P .none s).1.flab_counter
    ∧ (update_state e P enc s).1.fauxflab_counter
      = (update_state e P .none s).1.fauxflab_counter
    ∧ (update_state e P enc s).1.R_pos_input
      = (update_state e P .none s).1.R_pos_input
    ∧ (update_state e P enc s).1.R_neg_input
      = (update_state e P .none s).1.R_neg_input
    ∧ (update_state e P enc s).1.encounter_timer
      = (update_state e P .none s).1.encounter_timer
    ∧ (update_state e P enc s).1.nutrition
      = (s.nutrition + 0.3) - 0.0005 * (s.nutrition + 0.3)
    ∧ (update_state e P enc s).1.size
      = (if enc = .fauxflab then s.size else min (s.size + 0.1) P.max_slug_size) := by
  cases enc
  case none => exact absurd rfl henc
  case hermi =>
    have hx := applyEncounter_hermi_timer_ne P (calc_SH s) h
    refine ⟨?_, ?_, ?_, ?_, ?_, ?_, ?_, ?_⟩
    · show (applyEncounter P .hermi (calc_SH s)).hermi_counter
        = (applyEncounter P .none (calc_SH s)).hermi_counter
      rw [hx]
      rfl
    · show (applyEncounter P .hermi (calc_SH s)).flab_counter
        = (applyEncounter P .none (calc_SH s)).flab_counter
      rw [hx]
      rfl
    · show (applyEncounter P .hermi (calc_SH s)).fauxflab_counter
        = (applyEncounter P .none (calc_SH s)).fauxflab_counter
      rw [hx]
      rfl
    · show (applyEncounter P .hermi (calc_SH s)).R_pos_input * 0.8
        = (applyEncounter P .none (calc_SH s)).R_pos_input * 0.8
      rw [hx]
      rfl
    · show (applyEncounter P .hermi (calc_SH s)).R_neg_input * 0.8
        = (applyEncounter P .none (calc_SH s)).R_neg_input * 0.8
      rw [hx]
      rfl
    · show (if 0 < (applyEncounter P .hermi (calc_SH s)).encounter_timer then
          (applyEncounter P .hermi (calc_SH s)).encounter_timer - 1
        else (applyEncounter P .hermi (calc_SH s)).encounter_timer)
        = (if 0 < (applyEncounter P .none (calc_SH s)).encounter_timer then
          (applyEncounter P .none (calc_SH s)).encounter_timer - 1
        else (applyEncounter P .none (calc_SH s)).encounter_timer)
      rw [hx]
      rfl
    · show (applyEncounter P .hermi (calc_SH s)).nutrition
        - 0.0005 * (applyEncounter P .hermi (calc_SH s)).nutrition
        = (s.nutrition + 0.3) - 0.0005 * (s.nutrition + 0.3)
      rw [hx]
      rfl
    · show (applyEncounter P .hermi (calc_SH s)).size = _
      rw [hx, if_neg (by decide)]
      rfl
  case flab =>
    have hx := applyEncounter_flab_timer_ne P (calc_SH s) h
    refine ⟨?_, ?_, ?_, ?_, ?_, ?_, ?_, ?_⟩
    · show (applyEncounter P .flab (calc_SH s)).hermi_counter
        = (applyEncounter P .none (calc_SH s)).hermi_counter
      rw [hx]
      rfl
    · show (applyEncounter P .flab (calc_SH s)).flab_counter
        = (applyEncounter P .none (calc_SH s)).flab_counter
      rw [hx]
      rfl
    · show (applyEncounter P .flab (calc_SH s)).fauxflab_counter
        = (applyEncounter P .none (calc_SH s)).fauxflab_counter
      rw [hx]
      rfl
    · show (applyEncounter P .flab (calc_SH s)).R_pos_input * 0.8
        = (applyEncounter P .none (calc_SH s)).R_pos_input * 0.8
      rw [hx]
      rfl
    · show (applyEncounter P .flab (calc_SH s)).R_neg_input * 0.8
        = (applyEncounter P .none (calc_SH s)).R_neg_input * 0.8
      rw [hx]
      rfl
    · show (if 0 < (applyEncounter P .flab (calc_SH s)).encounter_timer then
          (applyEncounter P .flab (calc_SH s)).encounter_timer - 1
        else (applyEncounter P .flab (calc_SH s)).encounter_timer)
        = (if 0 < (applyEncounter P .none (calc_SH s)).encounter_timer then
          (applyEncounter P .none (calc_SH s)).encounter_timer - 1
        else (applyEncounter P .none (calc_SH s)).encounter_timer)
      rw [hx]
      rfl
    · show (applyEncounter P .flab (calc_SH s)).nutrition
        - 0.0005 * (applyEncounter P .flab (calc_SH s)).nutrition
        = (s.nutrition + 0.3) - 0.0005 * (s.nutrition + 0.3)
      rw [hx]
      rfl
    · show (applyEncounter P .flab (calc_SH s)).size = _
      rw [hx, if_neg (by decide)]
      rfl
  case fauxflab =>
    have hx := applyEncounter_fauxflab_timer_ne P (calc_SH s) h
    refine ⟨?_, ?_, ?_, ?_, ?_, ?_, ?_, ?_⟩
    · show (applyEncounter P .fauxflab (calc_SH s)).hermi_counter
        = (applyEncounter P .none (calc_SH s)).hermi_counter
      rw [hx]
      rfl
    · show (applyEncounter P .fauxflab (calc_SH s)).flab_counter
        = (applyEncounter P .none (calc_SH s)).flab_counter
      rw [hx]
      rfl
    · show (applyEncounter P .fauxflab (calc_SH s)).fauxflab_counter
        = (applyEncounter P .none (calc_SH s)).fauxflab_counter
      rw [hx]
      rfl
    · show (applyEncounter P .fauxflab (calc_SH s)).R_pos_input * 0.8
        = (applyEncounter P .none (calc_SH s)).R_pos_input * 0.8
      rw [hx]
      rfl
    · show (applyEncounter P .fauxflab (calc_SH s)).R_neg_input * 0.8
        = (applyEncounter P .none (calc_SH s)).R_neg_input * 0.8
      rw [hx]
      rfl
    · show (if 0 < (applyEncounter P .fauxflab (calc_SH s)).encounter_timer then
          (applyEncounter P .fauxflab (calc_SH s)).encounter_timer - 1
        else (applyEncounter P .fauxflab (calc_SH s)).encounter_timer)
        = (if 0 < (applyEncounter P .none (calc_SH s)).encounter_timer then
          (applyEncounter P .none (calc_SH s)).encounter_timer - 1
        else (applyEncounter P .none (calc_SH s)).encounter_timer)
      rw [hx]
      rfl
    · show (applyEncounter P .fauxflab (calc_SH s)).nutrition
        - 0.0005 * (applyEncounter P .fauxflab (calc_SH s)).nutrition
        = (s.nutrition + 0.3) - 0.0005 * (s.nutrition + 0.3)
      rw [hx]
      rfl
    · show (applyEncounter P .fauxflab (calc_SH s)).size = _
      rw [hx, if_pos rfl]
      rfl

theorem C4_cooldown_effects_witness :
    (Encounter.hermi ≠ Encounter.none ∧ sTimer.encounter_timer ≠ 0)
    ∧ (update_state (fun _ => 1) defaultParams .hermi sTimer).1.hermi_counter
      = (update_state (fun _ => 1) defaultParams .none sTimer).1.hermi_counter
    ∧ (update_state (fun _ => 1) defaultParams .hermi sTimer).1.nutrition
      = (sTimer.nutrition + 0.3) - 0.0005 * (sTimer.nutrition + 0.3)
    ∧ (update_state (fun _ => 1) defaultParams .fauxflab sTimer).1.size
      = (if Encounter.fauxflab = Encounter.fauxflab then sTimer.size
         else min (sTimer.size + 0.1) defaultParams.max_slug_size) :=
  ⟨⟨by decide, by simp [sTimer, initState]⟩,
   (C4_cooldown_effects (fun _ => 1) defaultParams .hermi sTimer (by decide)
     (by simp [sTimer, initState])).1,
   (C4_cooldown_effects (fun _ => 1) defaultParams .hermi sTimer (by decide)
     (by simp [sTimer, initState])).2.2.2.2.2.2.1,
   (C4_cooldown_effects (fun _ => 1) defaultParams .fauxflab sTimer (by decide)
     (by simp [sTimer, initState])).2.2.2.2.2.2.2⟩

/-- Claim C5 (as stated, refuted): capturing fauxflab does NOT leave the
forager's nutrition unchanged — the encounter block adds 0.3 nutrition
unconditionally (`agents.py` line 528, comment "Faux provides nutrition but
triggers learning").  From the initial state, a fauxflab capture leaves
nutrition 0.7996 after the tick instead of 0.49975. -/
theorem C5_counterexample :
    (update_state (fun _ => 1) defaultParams .fauxflab (initState 5)).1.nutrition
      ≠ (update_state (fun _ => 1) defaultParams .none (initState 5)).1.nutrition := by
  have h1 : (update_state (fun _ => 1) defaultParams .fauxflab (initState 5)).1.nutrition
      = nutritionAfterFeed defaultParams .fauxflab (initState 5) := rfl
  have h2 : (update_state (fun _ => 1) defaultParams .none (initState 5)).1.nutrition
      = nutritionAfterFeed defaultParams .none (initState 5) := rfl
  rw [h1, h2]
  norm_num [nutritionAfterFeed, applyEncounter, calc_SH, initState]

/-- Claim C5, amended: a fauxflab capture adds 0.3 to nutrition (before the
same tick's multiplicative decay) exactly like the nutritive prey types; it
leaves size unchanged; and, gated by the cooldown timer, it increments the
fauxflab counter and raises the positive-reward input by 2 (which then decays
by 0.8 within the same tick's learning-circuit update). -/
theorem C5_fauxflab_effects (e : ℚ → ℚ) (P : ModelParams) (s : SlugState) :
    (update_state e P .fauxflab s).1.nutrition
      = (s.nutrition + 0.3) - 0.0005 * (s.nutrition + 0.3)
    ∧ (update_state e P .fauxflab s).1.size = s.size
    ∧ (update_state e P .fauxflab s).1.fauxflab_counter
      = (if s.encounter_timer = 0 then s.fauxflab_counter + 1 else s.fauxflab_counter)
    ∧ (update_state e P .fauxflab s).1.R_pos_input
      = (if s.encounter_timer = 0 then (s.R_pos_input + 2) * 0.8
         else s.R_pos_input * 0.8) := by
  by_cases h : s.encounter_timer = 0
  · have hfx := applyEncounter_fauxflab_timer_eq P (calc_SH s) h
    refine ⟨?_, ?_, ?_, ?_⟩
    · show (applyEncounter P .fauxflab (calc_SH s)).nutrition
        - 0.0005 * (applyEncounter P .fauxflab (calc_SH s)).nutrition = _
      rw [hfx]
      rfl
    · show (applyEncounter P .fauxflab (calc_SH s)).size = s.size
      rw [hfx]
      rfl
    · show (applyEncounter P .fauxflab (calc_SH s)).fauxflab_counter = _
      rw [hfx, if_pos h]
      rfl
    · show (applyEncounter P .fauxflab (calc_SH s)).R_pos_input * 0.8 = _
      rw [hfx, if_pos h]
      rfl
  · have hfx := applyEncounter_fauxflab_timer_ne P (calc_SH s) h
    refine ⟨?_, ?_, ?_, ?_⟩
    · show (applyEncounter P .fauxflab (calc_SH s)).nutrition
        - 0.0005 * (applyEncounter P .fauxflab (calc_SH s)).nutrition = _
      rw [hfx]
      rfl
    · show (applyEncounter P .fauxflab (calc_SH s)).size = s.size
      rw [hfx]
      rfl
    · show (applyEncounter P .fauxflab (calc_SH s)).fauxflab_counter = _
      rw [hfx, if_neg h]
      rfl
    · show (applyEncounter P .fauxflab (calc_SH s)).R_pos_input * 0.8 = _
      rw [hfx, if_neg h]
      rfl

theorem applyEncounter_Vh_rp (P : ModelParams) (enc : Encounter) (s : SlugState) :
    (applyEncounter P enc s).Vh_rp = s.Vh_rp := by
  cases enc <;> simp only [applyEncounter] <;> (try split) <;> rfl

theorem applyEncounter_Vf_rp (P : ModelParams) (enc : Encounter) (s : SlugState) :
    (applyEncounter P enc s).Vf_rp = s.Vf_rp := by
  cases enc <;> simp only [applyEncounter] <;> (try split) <;> rfl

theorem applyEncounter_sns_odors (P : ModelParams) (enc : Encounter) (s : SlugState) :
    (applyEncounter P enc s).sns_odors = s.sns_odors := by
  cases enc <;> simp only [applyEncounter] <;> (try split) <;> rfl

theorem applyEncounter_nutrition_cases (P : ModelParams) (enc : Encounter) (s : SlugState) :
    (applyEncounter P enc s).nutrition = s.nutrition
    ∨ (applyEncounter P enc s).nutrition = s.nutrition + 0.3 := by
  cases enc
  · exact Or.inl rfl
  all_goals
    refine Or.inr ?_
    simp only [applyEncounter]
    split <;> rfl

theorem nutritionAfterFeed_nonneg (P : ModelParams) (enc : Encounter) (s : SlugState)
    (hn : 0 ≤ s.nutrition) : 0 ≤ nutritionAfterFeed P enc s := by
  have hcs : (calc_SH s).nutrition = s.nutrition := rfl
  have hx : 0 ≤ (applyEncounter P enc (calc_SH s)).nutrition := by
    rcases applyEncounter_nutrition_cases P enc (calc_SH s) with hh | hh <;>
      rw [hh, hcs] <;> linarith
  show 0 ≤ (applyEncounter P enc (calc_SH s)).nutrition
    - 0.0005 * (applyEncounter P enc (calc_SH s)).nutrition
  linarith

/-- Claim C6 (as stated, refuted): the positive-reward expression of
`update_state` is not division-safe for every configuration.  With the
satiation override pinned to 0.008 (the claim allows "any float"), the
denominator `1 + 0.5*(Vh_rp*sns_hermi) - 0.008/satiation` is exactly 0 on the
initial state (a `ZeroDivisionError` site in Python), and with the override
pinned to 0.0 the satiation value itself is 0, so `0.008/satiation` divides by
zero. -/
theorem C6_counterexample :
    rewardDenom (fun _ => 1)
      { max_slug_size := 20, encounter_cooldown := 10,
        fix_satiation_override := true, fix_satiation_value := 0.008 }
      .none (initState 5) = 0
    ∧ satiationValue (fun _ => 1)
      { max_slug_size := 20, encounter_cooldown := 10,
        fix_satiation_override := true, fix_satiation_value := 0 }
      .none (initState 5) = 0 := by
  constructor <;>
    norm_num [rewardDenom, satiationValue, nutritionAfterFeed, applyEncounter,
      calc_SH, initState]

/-- Claim C6, amended: when the satiation override is off, nutrition is
nonnegative and the learned hermi weight and sensed hermi odor are nonnegative
(all true along runs from the initial state), the satiation value is strictly
positive and the positive-reward denominator is strictly positive, so the
reward expression is division-safe; the claimed safety fails only under the
satiation override, which may pin satiation to 0 (division by zero in
`0.008/satiation`) or to 0.008 (zero denominator).  `e` stands for `math.exp`;
positivity, monotonicity and `e 2 ≤ 8` hold for the real exponential
(`exp 2 ≈ 7.389`). -/
theorem C6_reward_denominator_safe (e : ℚ → ℚ) (he : ∀ x, 0 < e x) (hmono : Monotone e)
    (he2 : e 2 ≤ 8) (P : ModelParams) (hP : P.fix_satiation_override = false)
    (enc : Encounter) (s : SlugState) (hn : 0 ≤ s.nutrition) (hV : 0 ≤ s.Vh_rp)
    (hsns : 0 ≤ s.sns_odors 1) :
    0 < satiationValue e P enc s ∧ 0 < rewardDenom e P enc s := by
  have hnf : 0 ≤ nutritionAfterFeed P enc s := nutritionAfterFeed_nonneg P enc s hn
  set t := e (-4 * nutritionAfterFeed P enc s + 2) with ht
  have ht0 : 0 < t := he _
  have ht8 : t ≤ 8 :=
    le_trans (hmono (by linarith : -4 * nutritionAfterFeed P enc s + 2 ≤ 2)) he2
  have hsat : satiationValue e P enc s = 1 / (1 + 0.7 * t) ^ 2 := by
    rw [satiationValue, if_neg (by simp [hP]), ht]
  have hsatpos : 0 < satiationValue e P enc s := by
    rw [hsat]
    positivity
  refine ⟨hsatpos, ?_⟩
  have hVs : (applyEncounter P enc (calc_SH s)).Vh_rp = s.Vh_rp :=
    (applyEncounter_Vh_rp P enc (calc_SH s)).trans rfl
  have hsns1 : (applyEncounter P enc (calc_SH s)).sns_odors 1 = s.sns_odors 1 :=
    congrFun ((applyEncounter_sns_odors P enc (calc_SH s)).trans rfl) 1
  have hden : rewardDenom e P enc s
      = 1 + (0.5 * ((applyEncounter P enc (calc_SH s)).Vh_rp
          * (applyEncounter P enc (calc_SH s)).sns_odors 1)
        + 0 * ((applyEncounter P enc (calc_SH s)).Vf_rp
          * (applyEncounter P enc (calc_SH s)).sns_odors 2))
        - 0.008 / satiationValue e P enc s := rfl
  rw [hden, hVs, hsns1, hsat, div_div_eq_mul_div, div_one]
  nlinarith [mul_nonneg hV hsns, mul_nonneg ht0.le (by linarith : (0:ℚ) ≤ 8 - t)]

theorem C6_reward_denominator_safe_witness :
    0 < satiationValue (fun _ => 1) defaultParams .none (initState 5)
    ∧ 0 < rewardDenom (fun _ => 1) defaultParams .none (initState 5) :=
  C6_reward_denominator_safe (fun _ => 1) (fun _ => by norm_num) monotone_const
    (by norm_num) defaultParams rfl .none (initState 5)
    (by norm_num [initState]) (by norm_num [initState]) (by norm_num [initState])

/-- The standard logistic sigmoid as the spec's formulas use it, with `e`
standing for `math.exp`. -/
def sigmoid (e : ℚ → ℚ) (x : ℚ) : ℚ := 1 / (1 + e (-x))

theorem update_state_turn (e : ℚ → ℚ) (P : ModelParams) (enc : Encounter) (s : SlugState) :
    (update_state e P enc s).2
      = (update_state e P enc s).1.app_state_switch * 2 *
        ((1 / (1 + e (3 * (update_state e P enc s).1.somatic_map))) - 0.5) := rfl

theorem applyEncounter_sns_left (P : ModelParams) (enc : Encounter) (s : SlugState) :
    (applyEncounter P enc s).sns_odors_left = s.sns_odors_left := by
  cases enc <;> simp only [applyEncounter] <;> (try split) <;> rfl

theorem applyEncounter_sns_right (P : ModelParams) (enc : Encounter) (s : SlugState) :
    (applyEncounter P enc s).sns_odors_right = s.sns_odors_right := by
  cases enc <;> simp only [applyEncounter] <;> (try split) <;> rfl

theorem applyEncounter_pain_left (P : ModelParams) (enc : Encounter) (s : SlugState) :
    (applyEncounter P enc s).sns_pain_left = s.sns_pain_left := by
  cases enc <;> simp only [applyEncounter] <;> (try split) <;> rfl

theorem applyEncounter_pain_right (P : ModelParams) (enc : Encounter) (s : SlugState) :
    (applyEncounter P enc s).sns_pain_right = s.sns_pain_right := by
  cases enc <;> simp only [applyEncounter] <;> (try split) <;> rfl

/-- A monotone positive stand-in for `math.exp` that distinguishes positive
from nonpositive arguments; used to exhibit the sign error concretely. -/
def expAsym : ℚ → ℚ := fun x => if x ≤ 0 then 1/2 else 2

/-- A forager state sensing hermi odor on the left only. -/
def sAsym : SlugState :=
  { initState 5 with sns_odors_left := ![0, 1, 0, 0, 0], sns_odors := ![0, 1/2, 0, 0, 0] }

/-- Claim C7 (as stated, refuted): the returned turn angle is NOT
`switch * 2 * (sigmoid(3*somaticMap) - 0.5)` — the source computes
`1 / (1 + exp(3 * somatic_map))` (`agents.py` line 586), which is
`sigmoid(-3*somaticMap)`, the opposite sign.  On a state sensing hermi odor on
the left only, and with a positive monotone stand-in for `exp`, the code's
turn angle is `-1/9` while the claimed formula gives `1/9`. -/
theorem C7_counterexample :
    (update_state expAsym defaultParams .none sAsym).2
      ≠ (update_state expAsym defaultParams .none sAsym).1.app_state_switch * 2 *
        (sigmoid expAsym (3 * (update_state expAsym defaultParams .none sAsym).1.somatic_map)
          - 0.5) := by
  have hsom : (update_state expAsym defaultParams .none sAsym).1.somatic_map = -(2/3) := by
    norm_num [update_state, applyEncounter, calc_SH, calc_learning_circuit,
      nutritionAfterFeed, satiationValue, rewardDenom, sAsym, initState, expAsym,
      defaultParams, max_def, min_def]
  have hsw : (update_state expAsym defaultParams .none sAsym).1.app_state_switch = -(1/3) := by
    norm_num [update_state, applyEncounter, calc_SH, calc_learning_circuit,
      nutritionAfterFeed, satiationValue, rewardDenom, sAsym, initState, expAsym,
      defaultParams, max_def, min_def]
  rw [update_state_turn, hsom, hsw]
  norm_num [sigmoid, expAsym]

/-- Claim C7, amended: the turn angle returned by `update_state` equals
`-(switch * 2 * (sigmoid(3*somaticMap) - 0.5))` — the code's
`1/(1+exp(3*somatic_map))` is `sigmoid(-3*somaticMap)` (this sign, composed
with the negation inside the somatic map, is what steers the forager toward
the side with the larger favorable signal); and whenever both bilateral odor
sensor lists and both bilateral pain sensors are zero, the somatic map is
exactly 0 and the returned turn angle is exactly 0.  The hypotheses on `e`
(positivity and `e x * e (-x) = 1`, hence `e 0 = 1`) hold for the real
exponential. -/
theorem C7_turn_angle (e : ℚ → ℚ) (he : ∀ x, 0 < e x) (hinv : ∀ x, e x * e (-x) = 1)
    (P : ModelParams) (enc : Encounter) (s : SlugState) :
    (update_state e P enc s).2
      = -((update_state e P enc s).1.app_state_switch * 2 *
          (sigmoid e (3 * (update_state e P enc s).1.somatic_map) - 0.5))
    ∧ ((∀ i, s.sns_odors_left i = 0) → (∀ i, s.sns_odors_right i = 0) →
        s.sns_pain_left = 0 → s.sns_pain_right = 0 →
        (update_state e P enc s).1.somatic_map = 0 ∧ (update_state e P enc s).2 = 0) := by
  have h0 : e 0 = 1 := by
    have h00 := hinv 0
    rw [neg_zero] at h00
    have hfac : (e 0 - 1) * (e 0 + 1) = 0 := by linear_combination h00
    rcases mul_eq_zero.mp hfac with hc | hc
    · linarith
    · have := he 0
      linarith
  have hkey : ∀ u : ℚ, (1 / (1 + e u)) - 0.5 = -(sigmoid e u - 0.5) := by
    intro u
    have ha := he u
    have hb := he (-u)
    have hab := hinv u
    have d1 : (1 + e u) ≠ 0 := by linarith
    have d2 : (1 + e (-u)) ≠ 0 := by linarith
    simp only [sigmoid]
    field_simp
    linear_combination -hab
  constructor
  · rw [update_state_turn, hkey]
    ring
  · intro hL hR hpl hpr
    have hfl : (applyEncounter P enc (calc_SH s)).sns_odors_left = s.sns_odors_left :=
      (applyEncounter_sns_left P enc (calc_SH s)).trans rfl
    have hfr : (applyEncounter P enc (calc_SH s)).sns_odors_right = s.sns_odors_right :=
      (applyEncounter_sns_right P enc (calc_SH s)).trans rfl
    have hfpl : (applyEncounter P enc (calc_SH s)).sns_pain_left = s.sns_pain_left :=
      (applyEncounter_pain_left P enc (calc_SH s)).trans rfl
    have hfpr : (applyEncounter P enc (calc_SH s)).sns_pain_right = s.sns_pain_right :=
      (applyEncounter_pain_right P enc (calc_SH s)).trans rfl
    have hzero : (update_state e P enc s).1.somatic_map = 0 := by
      simp only [update_state, calc_learning_circuit]
      simp [hfl, hfr, hfpl, hfpr, hL, hR, hpl, hpr]
    refine ⟨hzero, ?_⟩
    rw [update_state_turn, hzero]
    norm_num [h0]

theorem C7_turn_angle_witness :
    ((update_state (fun _ => 1) defaultParams .none (initState 5)).2
      = -((update_state (fun _ => 1) defaultParams .none (initState 5)).1.app_state_switch * 2 *
          (sigmoid (fun _ => 1)
            (3 * (update_state (fun _ => 1) defaultParams .none (initState 5)).1.somatic_map)
           - 0.5)))
    ∧ (update_state (fun _ => 1) defaultParams .none (initState 5)).1.somatic_map = 0
    ∧ (update_state (fun _ => 1) defaultParams .none (initState 5)).2 = 0 := by
  have h := C7_turn_angle (fun _ => 1) (fun _ => by norm_num) (fun _ => by norm_num)
    defaultParams .none (initState 5)
  exact ⟨h.1, h.2 (fun _ => rfl) (fun _ => rfl) rfl rfl⟩

theorem applyEncounter_M0 (P : ModelParams) (enc : Encounter) (s : SlugState) :
    (applyEncounter P enc s).M0 = s.M0 := by
  cases enc <;> simp only [applyEncounter] <;> (try split) <;> rfl

theorem update_state_M0 (e : ℚ → ℚ) (P : ModelParams) (enc : Encounter) (s : SlugState) :
    (update_state e P enc s).1.M0 = s.M0 := by
  show (applyEncounter P enc (calc_SH s)).M0 = s.M0
  rw [applyEncounter_M0]
  rfl

/-- Claim C9 (as stated, refuted): after a tick, `M0` does NOT equal the
forager's current size divided by 4 — `M0` is assigned `size / 4` once in
`__init__` (`agents.py` line 245) and never updated, while size grows on
captures.  From a freshly constructed forager of size 5 (so `M0 = 1.25`), one
hermi capture grows size to 5.1, and `M0 = 1.25 ≠ 5.1 / 4`. -/
theorem C9_counterexample :
    (update_state (fun _ => 1) defaultParams .hermi (initState 5)).1.M0
      ≠ (update_state (fun _ => 1) defaultParams .hermi (initState 5)).1.size / 4 := by
  have h1 : (update_state (fun _ => 1) defaultParams .hermi (initState 5)).1.M0 = 5/4 := by
    rw [update_state_M0]
    norm_num [initState]
  have h2 : (update_state (fun _ => 1) defaultParams .hermi (initState 5)).1.size = 5.1 := by
    show (applyEncounter defaultParams .hermi (calc_SH (initState 5))).size = 5.1
    rw [applyEncounter_hermi_timer_eq _ _ rfl]
    norm_num [calc_SH, initState, defaultParams, min_def]
  rw [h1, h2]
  norm_num

/-- Claim C9, amended: after every `calc_SH` update the habituation gain `W3`
lies in [0.1, 1.0] (it is clamped there); but `M0` is a constant of the state:
it is set to `size/4` at construction (as `initState` shows) and no per-tick
update ever writes it, so it equals `size/4` only until the first size
change. -/
theorem C9_habituation (s : SlugState) (e : ℚ → ℚ) (P : ModelParams) (enc : Encounter) :
    0.1 ≤ (calc_SH s).W3 ∧ (calc_SH s).W3 ≤ 1
    ∧ (update_state e P enc s).1.M0 = s.M0
    ∧ (initState 5).M0 = (initState 5).size / 4 := by
  refine ⟨?_, ?_, update_state_M0 e P enc s, by norm_num [initState]⟩
  · simp only [calc_SH]
    exact le_max_left _ _
  · simp only [calc_SH]
    exact max_le (by norm_num) ((min_le_left _ _).trans (by norm_num))

/-- A forager state at proboscis phase 19 with a strong left betaine reading
(6 > 5.5), so the extension condition holds. -/
def sProb19 : SlugState :=
  { initState 5 with sns_odors_left := ![6, 0, 0, 0, 0], proboscis_phase := 19 }

/-- Claim C10 (as stated, refuted): in the extending state the phase is NOT
always in 1..19, and retracted is NOT exactly phase 0 — when the trigger
condition holds at phase 19, `(19 + 1) % 20 = 0`, so the proboscis is extended
with phase 0 (`agents.py` line 415). -/
theorem C10_counterexample :
    ¬ (((update_proboscis sProb19).proboscis_extended = false
          ↔ (update_proboscis sProb19).proboscis_phase = 0)
       ∧ ((update_proboscis sProb19).proboscis_extended = true →
            1 ≤ (update_proboscis sProb19).proboscis_phase
            ∧ (update_proboscis sProb19).proboscis_phase ≤ 19)) := by
  have h1 : (update_proboscis sProb19).proboscis_extended = true := by
    norm_num [update_proboscis, sProb19, initState]
  have h2 : (update_proboscis sProb19).proboscis_phase = 0 := by
    norm_num [update_proboscis, sProb19, initState]
  intro hclaim
  have := hclaim.1.mpr h2
  rw [h1] at this
  exact absurd this (by norm_num)

/-- Claim C10, amended: the proboscis update is level-triggered each tick —
after the update it is extended exactly when the left or right betaine reading
exceeds 5.5 or `M > 1.3 * M0`; when triggered the phase advances as
`(phase + 1) % 20` (so it cycles through 0..19 and wraps to 0 from phase 19,
while still extended), otherwise the phase resets to 0 and the proboscis is
retracted; retracted implies phase 0, and from any phase below 19 a triggered
step lands in 1..19. -/
theorem C10_proboscis (s : SlugState) :
    ((update_proboscis s).proboscis_extended = true ↔ proboscisCondition s)
    ∧ (proboscisCondition s →
        (update_proboscis s).proboscis_phase = (s.proboscis_phase + 1) % 20)
    ∧ (¬ proboscisCondition s → (update_proboscis s).proboscis_phase = 0)
    ∧ ((update_proboscis s).proboscis_extended = false →
        (update_proboscis s).proboscis_phase = 0)
    ∧ (proboscisCondition s → s.proboscis_phase < 19 →
        1 ≤ (update_proboscis s).proboscis_phase
        ∧ (update_proboscis s).proboscis_phase ≤ 19) := by
  by_cases hc : s.sns_odors_left 0 > 5.5 ∨ s.sns_odors_right 0 > 5.5 ∨ s.M > 1.3 * s.M0
  · have hred : update_proboscis s
        = { s with proboscis_phase := (s.proboscis_phase + 1) % 20,
                   proboscis_extended := true } := by
      unfold update_proboscis
      rw [if_pos hc]
    have hc' : proboscisCondition s := hc
    refine ⟨?_, ?_, ?_, ?_, ?_⟩
    · rw [hred]
      simpa using hc'
    · intro _
      rw [hred]
    · intro hn
      exact absurd hc' hn
    · rw [hred]
      intro hfalse
      simp at hfalse
    · intro _ hlt
      rw [hred]
      show 1 ≤ (s.proboscis_phase + 1) % 20 ∧ (s.proboscis_phase + 1) % 20 ≤ 19
      have hmod : (s.proboscis_phase + 1) % 20 = s.proboscis_phase + 1 :=
        Nat.mod_eq_of_lt (by omega)
      omega
  · have hred : update_proboscis s
        = { s with proboscis_phase := 0, proboscis_extended := false } := by
      unfold update_proboscis
      rw [if_neg hc]
    have hc' : ¬ proboscisCondition s := hc
    refine ⟨?_, ?_, ?_, ?_, ?_⟩
    · rw [hred]
      simpa using hc'
    · intro hcond
      exact absurd hcond hc'
    · intro _
      rw [hred]
    · intro _
      rw [hred]
    · intro hcond
      exact absurd hcond hc'

theorem C10_proboscis_witness :
    proboscisCondition sProb19
    ∧ ((update_proboscis sProb19).proboscis_extended = true ↔ proboscisCondition sProb19)
    ∧ (update_proboscis sProb19).proboscis_phase = (sProb19.proboscis_phase + 1) % 20 := by
  have hcond : proboscisCondition sProb19 := by
    norm_num [proboscisCondition, sProb19, initState]
  exact ⟨hcond, (C10_proboscis sProb19).1, (C10_proboscis sProb19).2.1 hcond⟩
